import Mathlib

/-!
Verification of the NMR T2-decay computational core.

The repository consists of two near-identical Streamlit scripts,
`T2dist.py` and `nmr_T2decay_model.py`.  Their computational core is:

* `calculate_surface_area(radius)` = `4 * math.pi * radius**2`
* `calculate_volume(radius)` = `(4/3) * math.pi * radius**3`
* `calculate_surface_to_volume_ratio(s, v)` = `s / v if v != 0 else 0`
* `calculate_t2(p, sv)` = `1 / (p * sv) if sv != 0 else 0`,
  with a caught `ZeroDivisionError` returning `0`
* the Mt list comprehensions
  `[porosity * math.exp(-t / t2) if t2 > 0 else 0 for t in grid]`
* the custom-T2 text parse
  `[float(t.strip()) for t in raw.split(",")]` with a `ValueError`
  fallback to the default grid.

Real-valued computations are embedded over `ℝ` (the scripts use Python
floats; the spec's properties are stated up to floating-point tolerance,
so the real-number idealization is the intended semantics).  The T2-grid
text parse is embedded over `ℚ`, with a character-level model of Python's
`float()` literal grammar.
-/

open Real

/-- Sphere surface area, from `calculate_surface_area` in both scripts:
`4 * math.pi * radius**2`. -/
noncomputable def calculate_surface_area (radius : ℝ) : ℝ :=
  4 * Real.pi * radius ^ 2

/-- Sphere volume, from `calculate_volume` in both scripts:
`(4/3) * math.pi * radius**3`. -/
noncomputable def calculate_volume (radius : ℝ) : ℝ :=
  (4 / 3) * Real.pi * radius ^ 3

/-- Surface-to-volume ratio, from `calculate_surface_to_volume_ratio`:
`surface_area / volume if volume != 0 else 0`. -/
noncomputable def calculate_surface_to_volume_ratio (surface_area volume : ℝ) : ℝ :=
  if volume ≠ 0 then surface_area / volume else 0

/-- T2 relaxation time, from `calculate_t2`:
`1 / (relaxivity * sv) if sv != 0 else 0`, where a `ZeroDivisionError`
(raised exactly when `relaxivity * sv == 0` while `sv != 0`) is caught
and `0` is returned.  The inner branch models the caught exception. -/
noncomputable def calculate_t2 (relaxivity surface_to_volume : ℝ) : ℝ :=
  if surface_to_volume ≠ 0 then
    if relaxivity * surface_to_volume = 0 then 0
    else 1 / (relaxivity * surface_to_volume)
  else 0

/-- The geometry-to-T2 pipeline as composed in the scripts
(e.g. `t2_1_tab2 = calculate_t2(relaxivity_tab2, surface_to_volume_ratio_1_tab2)`
where the ratio comes from `calculate_surface_area` and `calculate_volume`
applied to the pore radius). -/
noncomputable def t2_from_radius (relaxivity radius : ℝ) : ℝ :=
  calculate_t2 relaxivity
    (calculate_surface_to_volume_ratio (calculate_surface_area radius) (calculate_volume radius))

/-- Magnetization-decay sequence, from the Mt list comprehensions
(`mt1_values`, `mt1_values_tab1`, ... — all three per script are the same
expression with different porosity constants):
`[porosity * math.exp(-t / t2) if t2 > 0 else 0 for t in grid]`. -/
noncomputable def mt1_values (porosity t2 : ℝ) (grid : List ℝ) : List ℝ :=
  grid.map (fun t => if t2 > 0 then porosity * Real.exp (-t / t2) else 0)

/- ### T2-grid text parsing (embedded over ℚ) -/

/-- Numeric value of a digit list, most significant first. -/
def natOfDigits (ds : List Char) : ℕ :=
  ds.foldl (fun a c => 10 * a + (c.toNat - 48)) 0

/-- Exponent part of a Python float literal: an optional sign followed by
at least one digit, consuming the whole remaining input. -/
def parseExpPart : List Char → Option ℤ
  | '+' :: rest =>
      if rest ≠ [] ∧ rest.all Char.isDigit then some (natOfDigits rest) else none
  | '-' :: rest =>
      if rest ≠ [] ∧ rest.all Char.isDigit then some (-(natOfDigits rest : ℤ)) else none
  | rest =>
      if rest ≠ [] ∧ rest.all Char.isDigit then some (natOfDigits rest) else none

/-- Character-level model of Python's `float()` on an already-stripped
token: optional sign, then digits with an optional fractional part (at
least one digit overall), then an optional `e`/`E` exponent.  Returns
`none` exactly when `float()` raises `ValueError`.  (The special
literals `inf`/`nan` and underscore digit separators, which never occur
in a T2 grid, are not modelled.) -/
def pyFloatCore (cs : List Char) : Option ℚ :=
  let signed : ℚ × List Char :=
    match cs with
    | '+' :: rest => (1, rest)
    | '-' :: rest => (-1, rest)
    | rest => (1, rest)
  let sign := signed.1
  let cs1 := signed.2
  let ip := cs1.takeWhile Char.isDigit
  let rest1 := cs1.dropWhile Char.isDigit
  let fracSplit : List Char × List Char :=
    match rest1 with
    | '.' :: r => (r.takeWhile Char.isDigit, r.dropWhile Char.isDigit)
    | r => ([], r)
  let fp := fracSplit.1
  let rest2 := if rest1.head? = some '.' then fracSplit.2 else rest1
  if ip = [] ∧ fp = [] then none
  else
    let mant : ℚ := sign * ((natOfDigits ip : ℚ) + (natOfDigits fp : ℚ) / 10 ^ fp.length)
    match rest2 with
    | [] => some mant
    | 'e' :: r => (parseExpPart r).map (fun e => mant * 10 ^ e)
    | 'E' :: r => (parseExpPart r).map (fun e => mant * 10 ^ e)
    | _ => none

/-- Python `raw.split(",")` on the character list of the raw text:
splitting on commas, keeping empty tokens (so `"".split(",") == [""]`). -/
def splitComma : List Char → List (List Char)
  | [] => [[]]
  | c :: rest =>
      if c = ',' then [] :: splitComma rest
      else
        match splitComma rest with
        | [] => [[c]]
        | t :: ts => (c :: t) :: ts

/-- Python `t.strip()`: drop leading and trailing whitespace. -/
def trimChars (cs : List Char) : List Char :=
  ((cs.dropWhile Char.isWhitespace).reverse.dropWhile Char.isWhitespace).reverse

/-- Python `float(t.strip())` on one raw token. -/
def pyFloatQ (t : List Char) : Option ℚ :=
  pyFloatCore (trimChars t)

/-- The list comprehension `[float(t.strip()) for t in raw.split(",")]`
run inside a single `try`: it succeeds only if every token converts;
any `ValueError` aborts the whole comprehension. -/
def parse_tokens : List (List Char) → Option (List ℚ)
  | [] => some []
  | t :: ts =>
      match pyFloatQ t, parse_tokens ts with
      | some v, some vs => some (v :: vs)
      | _, _ => none

/-- The fallback default grid from the `except ValueError` branch:
`[0.5, 1, 2, 4, 8, 16, 32, 64, 128, 256, 512, 1024]`. -/
def default_t2_values : List ℚ :=
  [1/2, 1, 2, 4, 8, 16, 32, 64, 128, 256, 512, 1024]

/-- The grid actually used, from `slider_t2_values` / `slider_t2_values_tab1`:
the parsed token values when every token converts, else the default grid. -/
def slider_t2_values (raw : String) : List ℚ :=
  match parse_tokens (splitComma raw.data) with
  | some vs => vs
  | none => default_t2_values

/- ### Helper lemmas -/

/-- For a nonzero radius the two-step surface/volume path collapses to the
closed form `3 / r`. -/
lemma sv_closed_form (r : ℝ) (hr : r ≠ 0) :
    calculate_surface_to_volume_ratio (calculate_surface_area r) (calculate_volume r) = 3 / r := by
  have hπ : Real.pi ≠ 0 := Real.pi_ne_zero
  have hv : (4 / 3) * Real.pi * r ^ 3 ≠ 0 := by positivity
  unfold calculate_surface_to_volume_ratio calculate_surface_area calculate_volume
  rw [if_pos hv]
  field_simp
  ring

/-- With nonzero relaxivity and radius, the full pipeline gives
`T2 = r / (3 p)`. -/
lemma t2_from_radius_eq (p r : ℝ) (hp : p ≠ 0) (hr : r ≠ 0) :
    t2_from_radius p r = r / (3 * p) := by
  unfold t2_from_radius
  rw [sv_closed_form r hr]
  have h3r : (3 : ℝ) / r ≠ 0 := by positivity
  have hpr : p * (3 / r) ≠ 0 := mul_ne_zero hp h3r
  unfold calculate_t2
  rw [if_pos h3r, if_neg hpr]
  field_simp
  exact Or.inl (by ring)

/-- Zero relaxivity always yields T2 = 0 (either via the `sv == 0` branch
or via the caught `ZeroDivisionError`). -/
lemma calculate_t2_zero_relaxivity (sv : ℝ) : calculate_t2 0 sv = 0 := by
  unfold calculate_t2
  by_cases h : sv ≠ 0
  · rw [if_pos h, if_pos (by ring)]
  · rw [if_neg h]

/-- When T2 is not positive every Mt entry is the `else 0` branch. -/
lemma mt1_values_of_nonpos (φ t2 : ℝ) (grid : List ℝ) (h : ¬ t2 > 0) :
    mt1_values φ t2 grid = List.replicate grid.length 0 := by
  unfold mt1_values
  induction grid with
  | nil => rfl
  | cons t ts ih =>
      simp only [List.map_cons, List.length_cons, List.replicate_succ, if_neg h] at ih ⊢
      exact congrArg (List.cons 0) ih

/-- If any token fails to convert, the whole comprehension fails. -/
lemma parse_tokens_eq_none (ts : List (List Char)) (h : ∃ t ∈ ts, pyFloatQ t = none) :
    parse_tokens ts = none := by
  induction ts with
  | nil => simp at h
  | cons t rest ih =>
      rcases h with ⟨u, hu, hnone⟩
      rcases List.mem_cons.mp hu with h1 | h2
      · subst h1
        simp [parse_tokens, hnone]
      · have hrest := ih ⟨u, h2, hnone⟩
        cases hpt : pyFloatQ t <;> simp [parse_tokens, hpt, hrest]

/- ### Claim C1 -/

/-- C1: for every radius r > 0, the surface-to-volume ratio computed by
dividing `calculate_surface_area r` by `calculate_volume r` (through
`calculate_surface_to_volume_ratio`) equals the closed-form sphere
identity `3 / r`. -/
theorem sv_equals_three_over_r (r : ℝ) (hr : 0 < r) :
    calculate_surface_to_volume_ratio (calculate_surface_area r) (calculate_volume r) = 3 / r :=
  sv_closed_form r (ne_of_gt hr)

/-- C1 witness: the identity at the concrete radius r = 2. -/
theorem sv_equals_three_over_r_witness :
    (0 : ℝ) < 2 ∧
      calculate_surface_to_volume_ratio (calculate_surface_area 2) (calculate_volume 2) = 3 / 2 :=
  ⟨by norm_num, sv_equals_three_over_r 2 (by norm_num)⟩

/- ### Claim C2 -/

/-- C2: end-to-end pipeline at relaxivity 0.003 and radius 0.5: the
surface-to-volume ratio is 6, T2 is `1 / (0.003 * 6)` (= 500/9 ms,
displayed as 55.5556), and the Mt value of the 30%-porosity curve at the
grid point `t = T2` is `30 * exp (-1)`. -/
theorem end_to_end_half_micron :
    calculate_surface_to_volume_ratio (calculate_surface_area 0.5) (calculate_volume 0.5) = 6 ∧
    t2_from_radius 0.003 0.5 = 1 / (0.003 * 6) ∧
    mt1_values 30 (t2_from_radius 0.003 0.5) [t2_from_radius 0.003 0.5] =
      [30 * Real.exp (-1)] := by
  have h1 : calculate_surface_to_volume_ratio (calculate_surface_area 0.5)
      (calculate_volume 0.5) = 6 := by
    rw [sv_closed_form 0.5 (by norm_num)]; norm_num
  have h2 : t2_from_radius 0.003 0.5 = 1 / (0.003 * 6) := by
    rw [t2_from_radius_eq 0.003 0.5 (by norm_num) (by norm_num)]; norm_num
  have hpos : t2_from_radius 0.003 0.5 > 0 := by rw [h2]; norm_num
  have hne : t2_from_radius 0.003 0.5 ≠ 0 := ne_of_gt hpos
  refine ⟨h1, h2, ?_⟩
  unfold mt1_values
  simp only [List.map_cons, List.map_nil, if_pos hpos]
  rw [neg_div, div_self hne]

/- ### Claim C3 -/

/-- C3 counterexample: with relaxivity 0.003 the pipeline gives
T2(0.25) = 250/9 and T2(1.0) = 1000/9, so T2(0.25) is NOT 4 × T2(1.0)
(it is a quarter of it: T2 is proportional to the radius). -/
theorem t2_quarter_ne_four_times_t2_one :
    ¬ t2_from_radius 0.003 0.25 = 4 * t2_from_radius 0.003 1 := by
  rw [t2_from_radius_eq 0.003 0.25 (by norm_num) (by norm_num),
    t2_from_radius_eq 0.003 1 (by norm_num) (by norm_num)]
  norm_num

/-- C3 amended: among the three tab-2 scenarios (radii 1.0, 0.5, 0.25,
shared relaxivity 0.003), the derived T2 values satisfy
T2(1.0) = 4 × T2(0.25): T2 is linear in the radius via S/V = 3/r. -/
theorem t2_one_eq_four_times_t2_quarter :
    t2_from_radius 0.003 1 = 4 * t2_from_radius 0.003 0.25 := by
  rw [t2_from_radius_eq 0.003 1 (by norm_num) (by norm_num),
    t2_from_radius_eq 0.003 0.25 (by norm_num) (by norm_num)]
  norm_num

/- ### Claim C4 -/

/-- C4 counterexample: at porosity 0 (an allowed slider value) the Mt
sequence over the strictly increasing positive grid [1, 2] with T2 = 1 is
[0, 0], which is not strictly decreasing.  So the claim fails for
porosity_fraction = 0. -/
theorem mt_not_strict_anti_at_zero_porosity :
    mt1_values 0 1 [1, 2] = [0, 0] ∧
    ¬ (mt1_values 0 1 [1, 2]).Pairwise (fun a b => a > b) := by
  have h : mt1_values 0 1 [1, 2] = [0, 0] := by
    unfold mt1_values
    norm_num
  refine ⟨h, ?_⟩
  rw [h]
  intro hp
  rcases List.pairwise_cons.mp hp with ⟨h0, -⟩
  exact absurd (h0 0 (List.mem_singleton.mpr rfl)) (lt_irrefl 0)

/-- C4 amended: for every T2 > 0, every porosity_fraction > 0 and every
strictly increasing grid of positive times, the Mt sequence is strictly
decreasing and every value lies in [0, porosity_fraction].  (The original
claim quantified over every porosity_fraction; it fails at porosity 0,
where the sequence is constantly 0.) -/
theorem mt_strict_anti_of_pos_porosity (φ t2 : ℝ) (grid : List ℝ)
    (hφ : 0 < φ) (ht2 : 0 < t2) (hpos : ∀ t ∈ grid, 0 < t)
    (hinc : grid.Pairwise (fun a b => a < b)) :
    (mt1_values φ t2 grid).Pairwise (fun a b => a > b) ∧
    ∀ x ∈ mt1_values φ t2 grid, 0 ≤ x ∧ x ≤ φ := by
  constructor
  · unfold mt1_values
    rw [List.pairwise_map]
    refine hinc.imp ?_
    intro a b hab
    rw [if_pos ht2, if_pos ht2]
    have h1 : -b / t2 < -a / t2 := by
      rw [div_lt_div_iff₀ ht2 ht2]
      nlinarith
    exact mul_lt_mul_of_pos_left (Real.exp_lt_exp.mpr h1) hφ
  · intro x hx
    unfold mt1_values at hx
    rcases List.mem_map.mp hx with ⟨t, ht, rfl⟩
    rw [if_pos ht2]
    have htpos := hpos t ht
    constructor
    · positivity
    · have hle : Real.exp (-t / t2) ≤ 1 := by
        rw [Real.exp_le_one_iff]
        apply div_nonpos_of_nonpos_of_nonneg <;> linarith
      nlinarith [Real.exp_pos (-t / t2)]

/-- C4 witness: the amended claim at porosity 30, T2 = 1, grid [1, 2]. -/
theorem mt_strict_anti_of_pos_porosity_witness :
    (0 : ℝ) < 30 ∧ (0 : ℝ) < 1 ∧ (∀ t ∈ [(1 : ℝ), 2], 0 < t) ∧
    ([(1 : ℝ), 2]).Pairwise (fun a b => a < b) ∧
    ((mt1_values 30 1 [1, 2]).Pairwise (fun a b => a > b) ∧
      ∀ x ∈ mt1_values 30 1 [1, 2], 0 ≤ x ∧ x ≤ 30) :=
  ⟨by norm_num, by norm_num, by norm_num,
    by norm_num [List.pairwise_cons],
    mt_strict_anti_of_pos_porosity 30 1 [1, 2] (by norm_num) (by norm_num)
      (by norm_num) (by norm_num [List.pairwise_cons])⟩

/- ### Claim C5 -/

/-- C5: with T2 ≤ 0 the Mt sequence over any non-empty grid is all-zero
and has the grid's length (every element takes the `else 0` branch). -/
theorem mt_all_zero_of_nonpos_t2 (φ t2 : ℝ) (grid : List ℝ)
    (ht2 : t2 ≤ 0) (_hne : grid ≠ []) :
    mt1_values φ t2 grid = List.replicate grid.length 0 ∧
    (mt1_values φ t2 grid).length = grid.length := by
  have h := mt1_values_of_nonpos φ t2 grid (not_lt.mpr ht2)
  exact ⟨h, by rw [h, List.length_replicate]⟩

/-- C5 witness: porosity 30, T2 = 0, grid [1, 2]. -/
theorem mt_all_zero_of_nonpos_t2_witness :
    (0 : ℝ) ≤ 0 ∧ ([(1 : ℝ), 2] ≠ []) ∧
    (mt1_values 30 0 [1, 2] = List.replicate ([(1 : ℝ), 2]).length 0 ∧
      (mt1_values 30 0 [(1 : ℝ), 2]).length = ([(1 : ℝ), 2]).length) :=
  ⟨le_refl 0, by simp, mt_all_zero_of_nonpos_t2 30 0 [1, 2] (le_refl 0) (by simp)⟩

/- ### Claim C6 -/

/-- C6: at radius 0 the geometry computation returns surface area 0,
volume 0 and surface-to-volume 0 (the `volume != 0` guard takes the
`else 0` branch, so no division by zero occurs), and the T2 derived from
that zero ratio is 0 for every positive relaxivity (the `sv != 0` guard
takes the `else 0` branch). -/
theorem zero_radius_geometry_and_t2 (p : ℝ) (_hp : 0 < p) :
    calculate_surface_area 0 = 0 ∧ calculate_volume 0 = 0 ∧
    calculate_surface_to_volume_ratio (calculate_surface_area 0) (calculate_volume 0) = 0 ∧
    calculate_t2 p
      (calculate_surface_to_volume_ratio (calculate_surface_area 0) (calculate_volume 0)) = 0 := by
  have ha : calculate_surface_area 0 = 0 := by unfold calculate_surface_area; ring
  have hv : calculate_volume 0 = 0 := by unfold calculate_volume; ring
  have hsv : calculate_surface_to_volume_ratio (calculate_surface_area 0)
      (calculate_volume 0) = 0 := by
    unfold calculate_surface_to_volume_ratio
    rw [hv]
    simp
  refine ⟨ha, hv, hsv, ?_⟩
  rw [hsv]
  unfold calculate_t2
  simp

/-- C6 witness: the degenerate geometry at relaxivity 0.003. -/
theorem zero_radius_geometry_and_t2_witness :
    (0 : ℝ) < 0.003 ∧
    (calculate_surface_area 0 = 0 ∧ calculate_volume 0 = 0 ∧
      calculate_surface_to_volume_ratio (calculate_surface_area 0) (calculate_volume 0) = 0 ∧
      calculate_t2 0.003
        (calculate_surface_to_volume_ratio (calculate_surface_area 0)
          (calculate_volume 0)) = 0) :=
  ⟨by norm_num, zero_radius_geometry_and_t2 0.003 (by norm_num)⟩

/- ### Claim C7 -/

/-- C7 counterexample: the raw text "-1" converts successfully, so the
parse returns the one-element list [-1] — a non-positive value does NOT
trigger the fallback to the default grid. -/
theorem negative_token_parsed_not_default :
    slider_t2_values "-1" = [-1] ∧ ((-1 : ℚ) ≤ 0) ∧
    slider_t2_values "-1" ≠ default_t2_values := by
  refine ⟨by with_unfolding_all decide, by norm_num, by with_unfolding_all decide⟩

/-- C7 amended: the parse is all-or-nothing with respect to conversion
failures: if any comma-separated token (after stripping) fails to convert
— in particular any unparseable or empty token — the whole parse returns
exactly the 12-element default grid, never a partially parsed list.
Non-positive values that convert successfully are kept, not rejected. -/
theorem parse_fallback_all_or_nothing (raw : String)
    (h : ∃ t ∈ splitComma raw.data, pyFloatQ t = none) :
    slider_t2_values raw = default_t2_values := by
  unfold slider_t2_values
  rw [parse_tokens_eq_none _ h]

/-- C7 witness: parsing "abc, 1, 2" returns exactly the default grid,
because the token "abc" fails to convert. -/
theorem parse_fallback_all_or_nothing_witness :
    (∃ t ∈ splitComma "abc, 1, 2".data, pyFloatQ t = none) ∧
    slider_t2_values "abc, 1, 2" = default_t2_values :=
  ⟨⟨['a', 'b', 'c'], by decide, by decide⟩,
    parse_fallback_all_or_nothing "abc, 1, 2" ⟨['a', 'b', 'c'], by decide, by decide⟩⟩

/- ### Claim C8 -/

/-- C8 counterexample: `calculate_t2` raises no error for non-positive
relaxivity: at relaxivity 0 (with S/V = 6) it silently returns T2 = 0 via
the caught `ZeroDivisionError`, and at relaxivity -0.003 it silently
returns a negative T2. -/
theorem nonpositive_relaxivity_silently_returns :
    calculate_t2 0 6 = 0 ∧ calculate_t2 (-0.003) 6 < 0 := by
  constructor
  · exact calculate_t2_zero_relaxivity 6
  · unfold calculate_t2
    rw [if_pos (by norm_num : (6 : ℝ) ≠ 0),
      if_neg (by norm_num : ¬ (-0.003 : ℝ) * 6 = 0)]
    norm_num

/-- C8 amended: for every relaxivity ≤ 0 and surface-to-volume ≥ 0,
`calculate_t2` does not fail: it silently returns a T2 ≤ 0 (zero when
`relaxivity * sv == 0`, negative otherwise); no `InvalidParameterError`
exists in the code. -/
theorem nonpositive_relaxivity_yields_nonpos_t2 (p sv : ℝ)
    (hp : p ≤ 0) (hsv : 0 ≤ sv) :
    calculate_t2 p sv ≤ 0 := by
  unfold calculate_t2
  by_cases h1 : sv ≠ 0
  · rw [if_pos h1]
    by_cases h2 : p * sv = 0
    · rw [if_pos h2]
    · rw [if_neg h2]
      have hp2 : p < 0 := lt_of_le_of_ne hp (fun he => h2 (by rw [he, zero_mul]))
      have hsv2 : 0 < sv := lt_of_le_of_ne hsv (Ne.symm h1)
      exact le_of_lt (one_div_neg.mpr (mul_neg_of_neg_of_pos hp2 hsv2))
  · rw [if_neg h1]

/-- C8 witness: the amended claim at relaxivity -1 and S/V = 6. -/
theorem nonpositive_relaxivity_yields_nonpos_t2_witness :
    (-1 : ℝ) ≤ 0 ∧ (0 : ℝ) ≤ 6 ∧ calculate_t2 (-1) 6 ≤ 0 :=
  ⟨by norm_num, by norm_num,
    nonpositive_relaxivity_yields_nonpos_t2 (-1) 6 (by norm_num) (by norm_num)⟩

/- ### Claim C9 -/

/-- C9 counterexample: at radius -1 the geometry functions raise nothing
and return plain values: surface area 4π, volume -(4/3)π, and ratio -3. -/
theorem negative_radius_returns_values :
    calculate_surface_area (-1) = 4 * Real.pi ∧
    calculate_volume (-1) = -((4 / 3) * Real.pi) ∧
    calculate_surface_to_volume_ratio (calculate_surface_area (-1))
      (calculate_volume (-1)) = -3 := by
  have hs : calculate_surface_area (-1) = 4 * Real.pi := by
    unfold calculate_surface_area; ring
  have hv : calculate_volume (-1) = -((4 / 3) * Real.pi) := by
    unfold calculate_volume; ring
  refine ⟨hs, hv, ?_⟩
  rw [sv_closed_form (-1) (by norm_num)]
  norm_num

/-- C9 amended: for every radius < 0 the pore-geometry computation does
not fail; it returns a positive surface area, a negative volume, and the
negative ratio 3/r.  No `InvalidGeometryError` exists in the code. -/
theorem negative_radius_geometry_values (r : ℝ) (hr : r < 0) :
    0 < calculate_surface_area r ∧ calculate_volume r < 0 ∧
    calculate_surface_to_volume_ratio (calculate_surface_area r) (calculate_volume r) = 3 / r ∧
    3 / r < 0 := by
  have hrne : r ≠ 0 := ne_of_lt hr
  refine ⟨?_, ?_, sv_closed_form r hrne, ?_⟩
  · unfold calculate_surface_area
    positivity
  · unfold calculate_volume
    have h2 : (0 : ℝ) < r ^ 2 := by positivity
    have h3 : r ^ 3 < 0 := by nlinarith
    nlinarith [Real.pi_pos]
  · exact div_neg_of_pos_of_neg (by norm_num) hr

/-- C9 witness: the amended claim at radius -2. -/
theorem negative_radius_geometry_values_witness :
    (-2 : ℝ) < 0 ∧
    (0 < calculate_surface_area (-2) ∧ calculate_volume (-2) < 0 ∧
      calculate_surface_to_volume_ratio (calculate_surface_area (-2))
        (calculate_volume (-2)) = 3 / (-2) ∧
      (3 : ℝ) / (-2) < 0) :=
  ⟨by norm_num, negative_radius_geometry_values (-2) (by norm_num)⟩

/- ### Claim C10 -/

/-- C10: `calculate_t2` is total: at relaxivity 0 the internal division
by zero is caught and 0 is returned (for any S/V), and at negative
relaxivity with positive S/V it returns a negative T2, which makes the
downstream decay curve all-zero via the `t2 > 0` guard rather than
aborting the computation. -/
theorem calculate_t2_total_behavior (p sv φ : ℝ) (grid : List ℝ)
    (hp : p < 0) (hsv : 0 < sv) :
    calculate_t2 0 sv = 0 ∧ calculate_t2 p sv < 0 ∧
    mt1_values φ (calculate_t2 p sv) grid = List.replicate grid.length 0 := by
  have hneg : calculate_t2 p sv < 0 := by
    unfold calculate_t2
    rw [if_pos (ne_of_gt hsv), if_neg (ne_of_lt (mul_neg_of_neg_of_pos hp hsv))]
    exact one_div_neg.mpr (mul_neg_of_neg_of_pos hp hsv)
  exact ⟨calculate_t2_zero_relaxivity sv, hneg,
    mt1_values_of_nonpos φ _ grid (not_lt.mpr (le_of_lt hneg))⟩

/-- C10 witness: relaxivity -1, S/V = 3, porosity 20, grid [1, 2]. -/
theorem calculate_t2_total_behavior_witness :
    (-1 : ℝ) < 0 ∧ (0 : ℝ) < 3 ∧
    (calculate_t2 0 3 = 0 ∧ calculate_t2 (-1) 3 < 0 ∧
      mt1_values 20 (calculate_t2 (-1) 3) [1, 2] =
        List.replicate ([(1 : ℝ), 2]).length 0) :=
  ⟨by norm_num, by norm_num,
    calculate_t2_total_behavior (-1) 3 20 [1, 2] (by norm_num) (by norm_num)⟩
